import Mathlib

/-!
A shallow embedding in Lean 4 of the ceych memoization library
(bbc/ceych): `lib/hash.js`, `lib/utils.js`, `lib/memoize.js` and
`lib/ceych.js`, together with proofs of the behavioural properties the
specification states about them.

Machine integers from the JavaScript source are modelled as `Nat`/`Int`
with explicit `% 2 ^ 32` where 32-bit wrap-around matters (inside
SHA-256); fallible JavaScript code (functions that `throw` or promises
that reject) is modelled with `Except`/`Option`; the mutable cache
backend and stats sink are modelled by explicit state passing.
-/

namespace Ceych

/-! ## SHA-256 (`lib/hash.js`)

`hash.js` is `crypto.createHash('sha256').update(string).digest('hex')`:
the lowercase-hex SHA-256 digest of the UTF-8 bytes of the input string.
The algorithm (FIPS 180-4) is embedded here over `Nat` with explicit
reduction `% 2 ^ 32`.
-/

/-- The modulus 2^32 for 32-bit words. -/
def w32 : Nat := 4294967296

/-- Right rotation of a 32-bit word. -/
def rotr (n x : Nat) : Nat := ((x >>> n) ||| (x <<< (32 - n))) % w32

/-- SHA-256 `Ch` function (bitwise choose). -/
def ch (x y z : Nat) : Nat := (x &&& y) ^^^ ((x ^^^ 4294967295) &&& z)

/-- SHA-256 `Maj` function (bitwise majority). -/
def maj (x y z : Nat) : Nat := (x &&& y) ^^^ (x &&& z) ^^^ (y &&& z)

/-- SHA-256 big sigma 0. -/
def bigSigma0 (x : Nat) : Nat := rotr 2 x ^^^ rotr 13 x ^^^ rotr 22 x

/-- SHA-256 big sigma 1. -/
def bigSigma1 (x : Nat) : Nat := rotr 6 x ^^^ rotr 11 x ^^^ rotr 25 x

/-- SHA-256 small sigma 0. -/
def smallSigma0 (x : Nat) : Nat := rotr 7 x ^^^ rotr 18 x ^^^ (x >>> 3)

/-- SHA-256 small sigma 1. -/
def smallSigma1 (x : Nat) : Nat := rotr 17 x ^^^ rotr 19 x ^^^ (x >>> 10)

/-- The 64 SHA-256 round constants (fractional parts of cube roots of
the first 64 primes, as 32-bit words). -/
def sha256K : List Nat :=
  [1116352408, 1899447441, 3049323471, 3921009573,
   961987163, 1508970993, 2453635748, 2870763221,
   3624381080, 310598401, 607225278, 1426881987,
   1925078388, 2162078206, 2614888103, 3248222580,
   3835390401, 4022224774, 264347078, 604807628,
   770255983, 1249150122, 1555081692, 1996064986,
   2554220882, 2821834349, 2952996808, 3210313671,
   3336571891, 3584528711, 113926993, 338241895,
   666307205, 773529912, 1294757372, 1396182291,
   1695183700, 1986661051, 2177026350, 2456956037,
   2730485921, 2820302411, 3259730800, 3345764771,
   3516065817, 3600352804, 4094571909, 275423344,
   430227734, 506948616, 659060556, 883997877,
   958139571, 1322822218, 1537002063, 1747873779,
   1955562222, 2024104815, 2227730452, 2361852424,
   2428436474, 2756734187, 3204031479, 3329325298]

/-- The eight SHA-256 working registers (32-bit words). -/
structure Regs where
  a : Nat
  b : Nat
  c : Nat
  d : Nat
  e : Nat
  f : Nat
  g : Nat
  h : Nat
deriving Repr, DecidableEq

/-- Initial hash value (fractional parts of square roots of the first
eight primes). -/
def initRegs : Regs :=
  ⟨1779033703, 3144134277, 1013904242, 2773480762,
   1359893119, 2600822924, 528734635, 1541459225⟩

/-- One SHA-256 compression round with round constant `k` and message
schedule word `w`. -/
def sha256Round (k w : Nat) (r : Regs) : Regs :=
  let t1 := (r.h + bigSigma1 r.e + ch r.e r.f r.g + k + w) % w32
  let t2 := (bigSigma0 r.a + maj r.a r.b r.c) % w32
  ⟨(t1 + t2) % w32, r.a, r.b, r.c, (r.d + t1) % w32, r.e, r.f, r.g⟩

/-- Pack a byte list into big-endian 32-bit words. -/
def toWords : List Nat → List Nat
  | b0 :: b1 :: b2 :: b3 :: rest =>
      (((b0 * 256 + b1) * 256 + b2) * 256 + b3) :: toWords rest
  | _ => []

/-- Extend the 16 words of a block to the 64-word message schedule. -/
def msgSchedule (ws : List Nat) : List Nat :=
  ((List.range 48).foldl (fun (w : Array Nat) j =>
      let i := j + 16
      let s0 := smallSigma0 (w.getD (i - 15) 0)
      let s1 := smallSigma1 (w.getD (i - 2) 0)
      w.push ((w.getD (i - 16) 0 + s0 + w.getD (i - 7) 0 + s1) % w32))
    ws.toArray).toList

/-- Pointwise 32-bit addition of register files. -/
def addRegs (x y : Regs) : Regs :=
  ⟨(x.a + y.a) % w32, (x.b + y.b) % w32, (x.c + y.c) % w32,
   (x.d + y.d) % w32, (x.e + y.e) % w32, (x.f + y.f) % w32,
   (x.g + y.g) % w32, (x.h + y.h) % w32⟩

/-- Compress one 64-byte block into the running hash state. -/
def processBlock (h : Regs) (block : List Nat) : Regs :=
  let w := msgSchedule (toWords block)
  addRegs h ((sha256K.zip w).foldl (fun r p => sha256Round p.1 p.2 r) h)

/-- SHA-256 message padding: append `0x80`, zeros to 56 mod 64, and the
bit length as eight big-endian bytes. -/
def pad (msg : List Nat) : List Nat :=
  let len := msg.length
  let zeros := (119 - len % 64) % 64
  let bitLen := 8 * len
  msg ++ [0x80] ++ List.replicate zeros 0 ++
    ((List.range 8).map (fun i => (bitLen >>> (8 * (7 - i))) % 256))

/-- Split a byte list into 64-byte blocks (structural recursion on a
fuel counter bounded by the list length, so that the definition reduces
inside the kernel; each step consumes at least one element, so
`l.length` fuel always suffices). -/
def toBlocksAux : Nat → List Nat → List (List Nat)
  | 0, _ => []
  | _, [] => []
  | fuel + 1, x :: xs => ((x :: xs).take 64) :: toBlocksAux fuel ((x :: xs).drop 64)

/-- Split a byte list into 64-byte blocks. -/
def toBlocks (l : List Nat) : List (List Nat) := toBlocksAux l.length l

/-- UTF-8 encoding of one character, as byte values. -/
def utf8Bytes (c : Char) : List Nat :=
  let n := c.toNat
  if n < 128 then [n]
  else if n < 2048 then [192 + n / 64, 128 + n % 64]
  else if n < 65536 then
    [224 + n / 4096, 128 + (n / 64) % 64, 128 + n % 64]
  else
    [240 + n / 262144, 128 + (n / 4096) % 64, 128 + (n / 64) % 64,
     128 + n % 64]

/-- UTF-8 bytes of a string. -/
def strBytes (s : String) : List Nat :=
  s.data.foldr (fun c acc => utf8Bytes c ++ acc) []

/-- One lowercase hex digit: digits `0`–`9` are code points 48–57,
digits `a`–`f` are code points 97–102. -/
def hexDigit (n : Nat) : Char :=
  if n < 10 then Char.ofNat (48 + n) else Char.ofNat (87 + n)

/-- The sixteen lowercase hexadecimal digits. -/
def hexChars : List Char := (List.range 16).map hexDigit

/-- Eight lowercase hex characters of one 32-bit word, most significant
digit first. -/
def wordHex (w : Nat) : List Char :=
  (List.range 8).map (fun i => hexDigit ((w >>> (4 * (7 - i))) % 16))

/-- The function `hash.create` from `lib/hash.js`: the lowercase-hex SHA-256 digest
of the UTF-8 bytes of a string. -/
def sha256hex (s : String) : String :=
  let r := (toBlocks (pad (strBytes s))).foldl processBlock initRegs
  String.mk (wordHex r.a ++ wordHex r.b ++ wordHex r.c ++ wordHex r.d ++
    wordHex r.e ++ wordHex r.f ++ wordHex r.g ++ wordHex r.h)

/-! ## JavaScript values and `JSON.stringify`

Arguments of a wrapped call are JavaScript values.  The engine treats
them opaquely except for passing them to `JSON.stringify` (which throws
a `TypeError` with message `Converting circular structure to JSON` on a
self-referential object) and to the wrapped computation.  `circular`
stands for a self-referential object graph, the representative
unserializable value.
-/

/-- A JavaScript value, as far as the memoization engine observes it. -/
inductive JsVal where
  | null
  | boolean (b : Bool)
  | num (n : Int)
  | str (s : String)
  | arr (elems : List JsVal)
  | circular
deriving Repr

/-- JSON string quoting (escapes backslash and double quote). -/
def jsonQuote (s : String) : String :=
  "\"" ++ s.data.foldr (fun c acc =>
    (if c = '"' then "\\\"" else if c = '\\' then "\\\\"
     else String.singleton c) ++ acc) "" ++ "\""

mutual

/-- Semantics of `JSON.stringify` on one `JsVal`; `none` models the thrown
`TypeError` on a circular value. -/
def jsonStringify : JsVal → Option String
  | .null => some "null"
  | .boolean true => some "true"
  | .boolean false => some "false"
  | .num n => some (toString n)
  | .str s => some (jsonQuote s)
  | .circular => none
  | .arr xs =>
    match jsonStringifyList xs with
    | some parts => some ("[" ++ String.intercalate "," parts ++ "]")
    | none => none

/-- Serialization of the elements of an array, failing if any element
fails. -/
def jsonStringifyList : List JsVal → Option (List String)
  | [] => some []
  | x :: xs =>
    match jsonStringify x, jsonStringifyList xs with
    | some sx, some rest => some (sx :: rest)
    | _, _ => none

end

/-- Serialization `JSON.stringify(args)` of an argument list, as used by `createKey`:
`.error` carries the `TypeError` message of the throw. -/
def stringifyArgs (args : List JsVal) : Except String String :=
  match jsonStringify (.arr args) with
  | some s => .ok s
  | none => .error "Converting circular structure to JSON"

/-! ## Errors, computations and cache keys -/

/-- An error surfaced by the engine.  JavaScript distinguishes the key
derivation failure only by its message prefix
`Failed to create cache key from arguments: `; the constructor tag
encodes that prefix, with `msg` the full message. -/
inductive Err where
  | keyDerivation (msg : String)
  | jsError (msg : String)
deriving Repr, DecidableEq

/-- A wrapped computation: its textual form (`func.toString()`, the
identity proxy hashed into the cache key) and its behaviour on an
argument list (`.error` models a rejected promise / thrown error). -/
structure Computation where
  src : String
  impl : List JsVal → Except Err JsVal

/-- A cache key as built by `createCacheKey`: content hash and
version-scoped segment. -/
structure CacheKey where
  id : String
  segment : String
deriving Repr, DecidableEq

/-- Modelled from the spec: the engine's release identifier read from
`package.json` (`require('../package').version`), which is not among
the source files; its concrete value is irrelevant to every claim. -/
def packageVersion : String := "0.0.0"

/-- The function `createKey` from `lib/memoize.js`:
`func.toString().concat(JSON.stringify(args))`, with the suffix
appended when it has nonzero length, hashed with `hash.create`. -/
def createKey (func : Computation) (args : List JsVal) (suffix : String) :
    Except String String :=
  match stringifyArgs args with
  | .error e => .error e
  | .ok j =>
    let keyString := func.src ++ j
    let keyString := if suffix.length ≠ 0 then keyString ++ suffix else keyString
    .ok (sha256hex keyString)

/-- The function `createCacheKey` from `lib/memoize.js`: wraps `createKey`, turning a
serialization throw into the `Failed to create cache key ...` error. -/
def createCacheKey (fn : Computation) (args : List JsVal) (suffix : String) :
    Except Err CacheKey :=
  match createKey fn args suffix with
  | .ok h => .ok ⟨h, "ceych_" ++ packageVersion⟩
  | .error msg =>
    .error (.keyDerivation ("Failed to create cache key from arguments: " ++ msg))

/-- The function `createKey` from `lib/utils.js` (textually the same derivation as
the one in `lib/memoize.js`). -/
def utilsCreateKey (func : Computation) (args : List JsVal) (suffix : String) :
    Except String String :=
  match stringifyArgs args with
  | .error e => .error e
  | .ok j =>
    let keyString := func.src ++ j
    let keyString := if suffix.length ≠ 0 then keyString ++ suffix else keyString
    .ok (sha256hex keyString)

/-- The function `createCacheKey` from `lib/utils.js`, used by `Ceych.invalidate`. -/
def utilsCreateCacheKey (fn : Computation) (args : List JsVal) (suffix : String) :
    Except Err CacheKey :=
  match utilsCreateKey fn args suffix with
  | .ok h => .ok ⟨h, "ceych_" ++ packageVersion⟩
  | .error msg =>
    .error (.keyDerivation ("Failed to create cache key from arguments: " ++ msg))

/-! ## The pluggable backend and stats sink

The backend (catbox client) is modelled as pure state passing: each
operation takes the backend state and returns its answer together with
the successor state.  A `get` answer of `some v` models the truthy
reply object with `reply.item = v`; `none` models a `null` reply (no
entry).  `.error` models a rejected promise.

The stats sink is likewise state passing; its answers additionally say
whether the call itself threw (`some e`), since nothing in
`lib/memoize.js` guards the `stats.increment`/`stats.timing` calls.
-/

/-- An abstract cache backend over state type `σ`. -/
structure CacheClient (σ : Type) where
  isReady : σ → Bool
  get : σ → CacheKey → Except Err (Option JsVal) × σ
  set : σ → CacheKey → JsVal → Int → Except Err Unit × σ

/-- An abstract stats sink over state type `τ`.  The first component of
an answer is the error the call threw, if any. -/
structure StatsClient (τ : Type) where
  increment : τ → String → Option Err × τ
  timing : τ → String → Option Err × τ

/-- The function `noOpStatsClient` from `lib/memoize.js`: does nothing, never
throws. -/
def noOpStatsClient : StatsClient Unit where
  increment t _ := (none, t)
  timing t _ := (none, t)

/-- Counters observed through a well-behaved stats sink. -/
structure Stats where
  hits : Nat
  misses : Nat
  errors : Nat
  readTimes : Nat
  writeTimes : Nat
deriving Repr, DecidableEq

/-- The zero counters. -/
def stats0 : Stats := ⟨0, 0, 0, 0, 0⟩

/-- A stats sink that counts each metric it is sent and never throws. -/
def countingStats : StatsClient Stats where
  increment t name :=
    (none,
      if name = "ceych.hits" then { t with hits := t.hits + 1 }
      else if name = "ceych.misses" then { t with misses := t.misses + 1 }
      else if name = "ceych.errors" then { t with errors := t.errors + 1 }
      else t)
  timing t name :=
    (none,
      if name = "ceych.read_time" then { t with readTimes := t.readTimes + 1 }
      else if name = "ceych.write_time" then { t with writeTimes := t.writeTimes + 1 }
      else t)

/-! ## The memoization engine (`lib/memoize.js`) -/

/-- Options captured by the wrapped function (`cacheOpts`). -/
structure CacheOpts where
  ttl : Int
  suffix : String

/-- Result of one call of the wrapped function: the value returned or
error thrown, the backend and stats sink states afterwards, and whether
the underlying computation was invoked during the call. -/
structure CallOutcome (σ τ : Type) where
  result : Except Err JsVal
  cache : σ
  stats : τ
  fnInvoked : Bool

/-- The catch block (increment `ceych.errors`, rethrow) shared by the
lookup path and `setInCache`: the original error propagates, unless the sink's own `increment`
throws, in which case that error propagates instead. -/
def statsIncErrors (sc : StatsClient τ) (t : τ) (e : Err) : Err × τ :=
  match sc.increment t "ceych.errors" with
  | (none, t') => (e, t')
  | (some e2, t') => (e2, t')

/-- The function `setInCache` from `lib/memoize.js`: writes under the key with
expiry `ttl * 1000` milliseconds, emits the write timing, and on any
throw inside its `try` increments `ceych.errors` and rethrows. -/
def setInCache (client : CacheClient σ) (sc : StatsClient τ) (key : CacheKey)
    (value : JsVal) (ttl : Int) (st : σ) (t : τ) :
    Except Err JsVal × σ × τ :=
  match client.set st key value (ttl * 1000) with
  | (.ok _, st') =>
    match sc.timing t "ceych.write_time" with
    | (none, t') => (.ok value, st', t')
    | (some e, t') =>
      let (e', t'') := statsIncErrors sc t' e
      (.error e', st', t'')
  | (.error e, st') =>
    let (e', t') := statsIncErrors sc t e
    (.error e', st', t')

/-- One call of the function returned by `module.exports` in
`lib/memoize.js`, transcribed branch by branch:

* backend not ready → call `fn` directly (no key, no backend, no stats);
* derive the cache key (throws of `createCacheKey` happen before the
  `try` block, so no error counter is touched);
* inside the `try`: `get`, read timing, hit → `ceych.hits` and the
  stored item; miss → `ceych.misses`, invoke `fn`, `setInCache`;
* any throw inside the `try` (including one of the sink's own) reaches
  the `catch`, which increments `ceych.errors` and rethrows. -/
def memoizeCall (client : CacheClient σ) (sc : StatsClient τ) (opts : CacheOpts)
    (fn : Computation) (args : List JsVal) (st : σ) (t : τ) :
    CallOutcome σ τ :=
  if client.isReady st = false then
    { result := fn.impl args, cache := st, stats := t, fnInvoked := true }
  else
    match createCacheKey fn args opts.suffix with
    | .error e => { result := .error e, cache := st, stats := t, fnInvoked := false }
    | .ok cacheKey =>
      match client.get st cacheKey with
      | (.error e, st') =>
        let (e', t') := statsIncErrors sc t e
        { result := .error e', cache := st', stats := t', fnInvoked := false }
      | (.ok reply, st') =>
        match sc.timing t "ceych.read_time" with
        | (some e, t') =>
          let (e', t'') := statsIncErrors sc t' e
          { result := .error e', cache := st', stats := t'', fnInvoked := false }
        | (none, t') =>
          match reply with
          | some item =>
            match sc.increment t' "ceych.hits" with
            | (none, t'') =>
              { result := .ok item, cache := st', stats := t'', fnInvoked := false }
            | (some e, t'') =>
              let (e', t3) := statsIncErrors sc t'' e
              { result := .error e', cache := st', stats := t3, fnInvoked := false }
          | none =>
            match sc.increment t' "ceych.misses" with
            | (some e, t'') =>
              let (e', t3) := statsIncErrors sc t'' e
              { result := .error e', cache := st', stats := t3, fnInvoked := false }
            | (none, t'') =>
              match fn.impl args with
              | .error e =>
                let (e', t3) := statsIncErrors sc t'' e
                { result := .error e', cache := st', stats := t3, fnInvoked := true }
              | .ok results =>
                match setInCache client sc cacheKey results opts.ttl st' t'' with
                | (.ok v, st'', t3) =>
                  { result := .ok v, cache := st'', stats := t3, fnInvoked := true }
                | (.error e, st'', t3) =>
                  let (e', t4) := statsIncErrors sc t3 e
                  { result := .error e', cache := st'', stats := t4, fnInvoked := true }

/-! ## The in-memory backend (catbox-memory, the default client)

The default backend is an in-memory key-value store.  Claims about
TTL-based expiry are not in scope, so the store keeps only the values;
`set` overwrites, `get` answers `null` for an absent key, `drop`
removes the key and does not fail on a missing one. -/

/-- State of the in-memory backend: an association list with at most
one binding per key (maintained by `set`). -/
abbrev MemState := List (CacheKey × JsVal)

/-- Lookup in the in-memory store. -/
def memLookup (st : MemState) (k : CacheKey) : Option JsVal :=
  List.lookup k st

/-- Remove a key from the in-memory store (`drop`; a no-op when the key
is absent). -/
def memDrop (st : MemState) (k : CacheKey) : MemState :=
  st.filter (fun p => p.1 != k)

/-- The in-memory backend: always ready, `get` never fails and answers
the stored entry, `set` never fails and overwrites. -/
def memClient : CacheClient MemState where
  isReady _ := true
  get st k := (.ok (memLookup st k), st)
  set st k v _ms := (.ok (), (k, v) :: memDrop st k)

/-- A backend that logs every `set` call (key, value, expiry in
milliseconds), always reports ready, and always misses on `get`; used
to observe what the engine writes. -/
def recordClient : CacheClient (List (CacheKey × JsVal × Int)) where
  isReady _ := true
  get st _ := (.ok none, st)
  set st k v ms := (.ok (), st ++ [(k, v, ms)])

/-! ## `lib/ceych.js`: construction, `wrap` and `invalidate`

This is the later of the two revisions kept in `lib/ceych.js` (the one
whose `getWrapOpts` takes `(func, ttl, suffix)` positionally and whose
`invalidate` goes through `validateInvalidateOpts`). -/

/-- A loosely-typed JavaScript argument as passed to `wrap` for the
`ttl`/`suffix` slots. -/
inductive JsArg where
  | undef
  | num (n : Int)
  | str (s : String)
deriving Repr, DecidableEq

/-- JavaScript truthiness of a `JsArg` (`undefined`, `0` and the empty
string are falsy). -/
def JsArg.truthy : JsArg → Bool
  | .undef => false
  | .num n => n != 0
  | .str s => s != ""

/-- Whether a `JsArg` is a string (`typeof v === 'string'`). -/
def JsArg.isStr : JsArg → Bool
  | .str _ => true
  | _ => false

/-- JavaScript `a || b`: the first operand when truthy, otherwise the
second. -/
def jsOr (a b : JsArg) : JsArg := if a.truthy then a else b

/-- The function `validateClientOpts` from `lib/ceych.js`, restricted to the
`defaultTTL` handling the claims are about: an absent `defaultTTL`
defaults to `30`; a value `≤ 0` is a construction-time error. -/
def validateClientOpts (defaultTTL? : Option Int) : Except Err Int :=
  let d := defaultTTL?.getD 30
  if d ≤ 0 then
    .error (.jsError "Default TTL cannot be less than or equal to zero")
  else .ok d

/-- The function `getWrapOpts` from `lib/ceych.js` (later revision): the first
argument must be a function, `ttl` a number and `suffix` a string.
A missing or non-callable function is collapsed into `none` here, JS
distinguishes the two cases only by message. -/
def getWrapOpts (func? : Option Computation) (ttl suffix : JsArg) :
    Except Err CacheOpts :=
  match func? with
  | none => .error (.jsError "Can only wrap a function, received nothing")
  | some _ =>
    match ttl with
    | .num n =>
      match suffix with
      | .str s => .ok ⟨n, s⟩
      | _ => .error (.jsError "Incorrect wrap opts received, suffix must be a string")
    | _ => .error (.jsError "Incorrect wrap opts received, ttl must be a number")

/-- The method `Ceych.wrap` (later revision): computes the options the returned
memoized function closes over — `memoize(this.cache, opts, func)` with
`opts = getWrapOpts(func, ttl || this.defaultTTL, suffix)`. -/
def ceychWrap (defaultTTL : Int) (func : Computation) (ttl suffix : JsArg) :
    Except Err CacheOpts :=
  getWrapOpts (some func) (jsOr ttl (.num defaultTTL)) suffix

/-- The argument of `Ceych.invalidate` (later revision): either the
original computation itself, or an options object with `func` and an
optional `suffix` field, or something falsy. -/
inductive InvalidateArg where
  | nothing
  | func (f : Computation)
  | opts (f? : Option Computation) (sfx : Option JsArg)

/-- The function `validateInvalidateOpts` from `lib/ceych.js` (later revision):
yields the computation and the suffix string (defaulted to `""` when
the `suffix` field is falsy). -/
def validateInvalidateOpts : InvalidateArg → Except Err (Computation × String)
  | .nothing =>
    .error (.jsError "Incorrect invalidate opts received, you must pass a function or options object to invalidate.")
  | .func f => .ok (f, "")
  | .opts f? sfx =>
    match f? with
    | none => .error (.jsError "Incorrect invalidate opts received, opts.func must be a function.")
    | some f =>
      let sv := sfx.getD .undef
      if sv.truthy && !sv.isStr then
        .error (.jsError "Incorrect invalidate opts received, opts.suffix must be a string.")
      else
        .ok (f, match sv with | .str s => s | _ => "")

/-- The method `Ceych.invalidate` (later revision) against the in-memory backend:
re-derives the cache key with `utils.createCacheKey` from the original
computation, the remaining call arguments and the validated suffix,
then drops that key.  (The guarded `this.stats.increment` is modelled
for a client constructed without a stats sink.) -/
def ceychInvalidate (arg : InvalidateArg) (args : List JsVal) (st : MemState) :
    Except Err (CacheKey × MemState) :=
  match validateInvalidateOpts arg with
  | .error e => .error e
  | .ok (f, s) =>
    match utilsCreateCacheKey f args s with
    | .error e => .error e
    | .ok key => .ok (key, memDrop st key)

/-! ## Repeated calls of a wrapped computation -/

/-- Performs `n` successive calls of the wrapped computation with one fixed
argument list, threading the backend and stats states; yields the final
states, the list of per-call results, and how many of the calls invoked
the underlying computation. -/
def iterateCalls (client : CacheClient σ) (sc : StatsClient τ) (opts : CacheOpts)
    (fn : Computation) (args : List JsVal) :
    Nat → σ → τ → σ × τ × List (Except Err JsVal) × Nat
  | 0, st, t => (st, t, [], 0)
  | n + 1, st, t =>
    let o := memoizeCall client sc opts fn args st t
    let (st', t', rs, c) := iterateCalls client sc opts fn args n o.cache o.stats
    (st', t', o.result :: rs, (if o.fnInvoked then 1 else 0) + c)

/-! ## Concrete instances used to witness the theorems -/

/-- A stub computation: source text `"fsrc"`, always resolves to `1`. -/
def stubFn : Computation := ⟨"fsrc", fun _ => .ok (.num 1)⟩

/-- A computation that resolves to `null`. -/
def nullFn : Computation := ⟨"gsrc", fun _ => .ok .null⟩

/-- A backend whose `get` always rejects. -/
def getErrClient : CacheClient Unit where
  isReady _ := true
  get st _ := (.error (.jsError "GET Error!"), st)
  set st _ _ _ := (.ok (), st)

/-- A backend whose `get` always misses and whose `set` always
rejects. -/
def setErrClient : CacheClient Unit where
  isReady _ := true
  get st _ := (.ok none, st)
  set st _ _ _ := (.error (.jsError "SET Error!"), st)

/-- A backend that always has an entry with item `7`. -/
def hitClient : CacheClient Unit where
  isReady _ := true
  get st _ := (.ok (some (.num 7)), st)
  set st _ _ _ := (.ok (), st)

/-- A backend that reports not-ready. -/
def notReadyClient : CacheClient Unit where
  isReady _ := false
  get st _ := (.ok none, st)
  set st _ _ _ := (.ok (), st)

/-- A stats sink whose `increment` throws on `ceych.hits` and is silent
otherwise. -/
def throwOnHitsStats : StatsClient Unit where
  increment t n :=
    (if n = "ceych.hits" then some (.jsError "stats sink threw") else none, t)
  timing t _ := (none, t)

/-- The cache key whose `id` is the digest of the given string. -/
def mkKey (s : String) : CacheKey := ⟨sha256hex s, "ceych_" ++ packageVersion⟩

/-! ## Helper lemmas -/

/-- A hex digit of a value below 16 is one of the sixteen lowercase hex
characters. -/
theorem hexDigit_mem (n : Nat) (h : n < 16) : hexDigit n ∈ hexChars :=
  List.mem_map.mpr ⟨n, List.mem_range.mpr h, rfl⟩

/-- The digest rendered by `sha256hex` always has 64 characters. -/
theorem sha256hex_length (s : String) : (sha256hex s).length = 64 := by
  simp [sha256hex, String.length, wordHex]

/-- Every character of a `sha256hex` digest is a lowercase hex
character. -/
theorem sha256hex_mem (s : String) :
    ∀ c ∈ (sha256hex s).data, c ∈ hexChars := by
  intro c hc
  simp only [sha256hex, wordHex, List.mem_append, List.mem_map,
    List.mem_range] at hc
  rcases hc with ((((((⟨i, -, rfl⟩ | ⟨i, -, rfl⟩) | ⟨i, -, rfl⟩) | ⟨i, -, rfl⟩) |
    ⟨i, -, rfl⟩) | ⟨i, -, rfl⟩) | ⟨i, -, rfl⟩) | ⟨i, -, rfl⟩ <;>
    exact hexDigit_mem _ (Nat.mod_lt _ (by norm_num))

/-- The key derivation in `lib/utils.js` (used by `Ceych.invalidate`)
is the same function as the one in `lib/memoize.js` (used by a wrapped
call). -/
theorem utilsCreateCacheKey_eq (fn : Computation) (args : List JsVal)
    (s : String) : utilsCreateCacheKey fn args s = createCacheKey fn args s := rfl

/-- Looking up a key right after `set` stored it finds the value. -/
theorem memLookup_set (st : MemState) (k : CacheKey) (v : JsVal) :
    memLookup ((k, v) :: memDrop st k) k = some v := by
  simp [memLookup, List.lookup]

/-- After dropping a key it is absent. -/
theorem memLookup_memDrop_self (st : MemState) (k : CacheKey) :
    memLookup (memDrop st k) k = none := by
  induction st with
  | nil => rfl
  | cons p st ih =>
    by_cases h : p.1 = k
    · have hb : (p.1 != k) = false := by simp [h]
      simpa [memDrop, List.filter_cons, hb] using ih
    · have hb : (p.1 != k) = true := by simp [bne_iff_ne]; exact h
      have hb' : (k == p.1) = false := by
        simp [beq_eq_false_iff_ne]; exact fun hh => h hh.symm
      simpa [memDrop, memLookup, List.filter_cons, hb, List.lookup, hb'] using ih

/-- Dropping one key leaves every other key's entry unchanged. -/
theorem memLookup_memDrop_ne (st : MemState) (k k' : CacheKey) (h : k' ≠ k) :
    memLookup (memDrop st k) k' = memLookup st k' := by
  induction st with
  | nil => rfl
  | cons p st ih =>
    by_cases hp : p.1 = k
    · have hb : (p.1 != k) = false := by simp [hp]
      have hb' : (k' == p.1) = false := by
        simp [beq_eq_false_iff_ne]; exact fun hh => h (hh.trans hp)
      simpa [memDrop, memLookup, List.filter_cons, hb, List.lookup, hb'] using ih
    · have hb : (p.1 != k) = true := by simp [bne_iff_ne]; exact hp
      by_cases hp' : k' = p.1
      · simp [memDrop, memLookup, List.filter_cons, hb, List.lookup, hp']
      · have hb' : (k' == p.1) = false := by
          simp [beq_eq_false_iff_ne]; exact hp'
        simpa [memDrop, memLookup, List.filter_cons, hb, List.lookup, hb'] using ih

/-- A call against the in-memory backend whose key is present: the hit
path — the stored value is returned, the store is unchanged, the
underlying computation is not invoked, `ceych.hits` and the read timing
are emitted. -/
theorem memCall_hit (opts : CacheOpts) (fn : Computation) (args : List JsVal)
    (k : CacheKey) (v : JsVal) (st : MemState) (t : Stats)
    (hk : createCacheKey fn args opts.suffix = .ok k)
    (hv : memLookup st k = some v) :
    memoizeCall memClient countingStats opts fn args st t =
      ⟨.ok v, st,
       { t with hits := t.hits + 1, readTimes := t.readTimes + 1 }, false⟩ := by
  simp [memoizeCall, memClient, countingStats, hk, hv]

/-- A call against the in-memory backend whose key is absent and whose
computation succeeds: the miss path — the computation runs, the value
is stored under the key, `ceych.misses` and both timings are
emitted. -/
theorem memCall_miss_store (opts : CacheOpts) (fn : Computation)
    (args : List JsVal) (k : CacheKey) (v : JsVal) (st : MemState) (t : Stats)
    (hk : createCacheKey fn args opts.suffix = .ok k)
    (hm : memLookup st k = none)
    (hv : fn.impl args = .ok v) :
    memoizeCall memClient countingStats opts fn args st t =
      ⟨.ok v, (k, v) :: memDrop st k,
       { t with misses := t.misses + 1, readTimes := t.readTimes + 1,
                writeTimes := t.writeTimes + 1 }, true⟩ := by
  simp [memoizeCall, memClient, countingStats, setInCache, hk, hm, hv]

/-- While the key is present in the in-memory backend, every further
call is a hit: the store never changes, every result is the stored
value, and the underlying computation is never invoked. -/
theorem iterate_hits (opts : CacheOpts) (fn : Computation) (args : List JsVal)
    (k : CacheKey) (v : JsVal) (N : Nat) (st : MemState) (t : Stats)
    (hk : createCacheKey fn args opts.suffix = .ok k)
    (hv : memLookup st k = some v) :
    iterateCalls memClient countingStats opts fn args N st t =
      (st, { t with hits := t.hits + N, readTimes := t.readTimes + N },
       List.replicate N (.ok v), 0) := by
  induction N generalizing t with
  | zero => simp [iterateCalls]
  | succ n ih =>
    rw [iterateCalls, memCall_hit opts fn args k v st t hk hv]
    simp only
    rw [ih]
    cases t
    simp [List.replicate_succ]
    omega

/-! ## The claims -/

/-- C1.  With the backend ready (the in-memory backend), an argument
list whose key is initially absent, and a computation that succeeds:
over `N + 1` identical calls of the wrapped form, every call returns
the computed value and the underlying computation is invoked exactly
once (the first call misses, computes and stores; every subsequent call
is served from the cache without invoking the computation). -/
theorem c1_idempotent_hit (opts : CacheOpts) (fn : Computation)
    (args : List JsVal) (k : CacheKey) (v : JsVal) (st : MemState) (t : Stats)
    (N : Nat)
    (hk : createCacheKey fn args opts.suffix = .ok k)
    (hm : memLookup st k = none)
    (hv : fn.impl args = .ok v) :
    (iterateCalls memClient countingStats opts fn args (N + 1) st t).2.2.1 =
      List.replicate (N + 1) (.ok v) ∧
    (iterateCalls memClient countingStats opts fn args (N + 1) st t).2.2.2 = 1 := by
  rw [iterateCalls, memCall_miss_store opts fn args k v st t hk hm hv]
  simp only
  rw [iterate_hits opts fn args k v N _ _ hk (memLookup_set st k v)]
  simp [List.replicate_succ]

/-- Witness for C1: a stub computation returning `1`, three calls from
the empty store — results `[1, 1, 1]`, one invocation. -/
theorem c1_idempotent_hit_witness :
    (iterateCalls memClient countingStats ⟨30, ""⟩ stubFn [] 3 [] stats0).2.2.1 =
      List.replicate 3 (.ok (.num 1)) ∧
    (iterateCalls memClient countingStats ⟨30, ""⟩ stubFn [] 3 [] stats0).2.2.2 = 1 :=
  c1_idempotent_hit ⟨30, ""⟩ stubFn []
    ⟨sha256hex "fsrc[]", "ceych_" ++ packageVersion⟩ (.num 1) [] stats0 2
    rfl rfl rfl

/-- C2.  Key derivation is a pure function of the computation's textual
form, the JSON serialization of the argument list, and the suffix: when
serialization succeeds with `j`, the derived key's `id` is exactly the
SHA-256 digest (rendered as 64 lowercase hex characters) of
`func.toString() ++ j`, with the suffix appended when non-empty, and
its `segment` is the version namespace.  Being a Lean function of those
inputs, the derivation is deterministic and reproducible: any two
evaluations on equal inputs yield this same key. -/
theorem c2_key_determinism (fn : Computation) (args : List JsVal) (s j : String)
    (hj : stringifyArgs args = .ok j) :
    createCacheKey fn args s =
      .ok ⟨sha256hex (if s.length ≠ 0 then fn.src ++ j ++ s else fn.src ++ j),
           "ceych_" ++ packageVersion⟩ ∧
    (sha256hex (if s.length ≠ 0 then fn.src ++ j ++ s else fn.src ++ j)).length
      = 64 ∧
    ∀ c ∈ (sha256hex (if s.length ≠ 0 then fn.src ++ j ++ s else
        fn.src ++ j)).data, c ∈ hexChars := by
  refine ⟨?_, sha256hex_length _, sha256hex_mem _⟩
  by_cases hs : s.length ≠ 0 <;> simp [createCacheKey, createKey, hj, hs]

/-- Witness for C2 at a concrete computation, argument list and
suffix. -/
theorem c2_key_determinism_witness :
    stringifyArgs [JsVal.num 1, JsVal.str "a"] = .ok "[1,\"a\"]" ∧
    createCacheKey stubFn [JsVal.num 1, JsVal.str "a"] "x" =
      .ok ⟨sha256hex "fsrc[1,\"a\"]x", "ceych_" ++ packageVersion⟩ :=
  ⟨rfl, (c2_key_determinism stubFn [JsVal.num 1, JsVal.str "a"] "x" "[1,\"a\"]"
    rfl).1⟩

/-- C4.  When the backend is ready and its `get` rejects, the
`ceych.errors` counter is incremented, the error is propagated to the
caller unchanged, and the underlying computation is never invoked —
regardless of the backend: the final backend state is exactly the state
after the failing `get`, so no `set` is attempted either. -/
theorem c4_get_error_fail_closed {σ : Type} (client : CacheClient σ)
    (opts : CacheOpts) (fn : Computation) (args : List JsVal) (k : CacheKey)
    (e : Err) (st st' : σ) (t : Stats)
    (hr : client.isReady st = true)
    (hk : createCacheKey fn args opts.suffix = .ok k)
    (hg : client.get st k = (.error e, st')) :
    memoizeCall client countingStats opts fn args st t =
      ⟨.error e, st', { t with errors := t.errors + 1 }, false⟩ := by
  simp [memoizeCall, countingStats, statsIncErrors, hr, hk, hg]

/-- Witness for C4: a backend whose `get` always rejects. -/
theorem c4_get_error_fail_closed_witness :
    memoizeCall getErrClient countingStats ⟨30, ""⟩ stubFn [] () stats0 =
      ⟨.error (.jsError "GET Error!"), (), { stats0 with errors := 1 }, false⟩ :=
  c4_get_error_fail_closed getErrClient ⟨30, ""⟩ stubFn []
    ⟨sha256hex "fsrc[]", "ceych_" ++ packageVersion⟩ (.jsError "GET Error!")
    () () stats0 rfl rfl rfl

/-- C6.  When the backend is ready but the argument list cannot be
JSON-serialized, the call fails with the
`Failed to create cache key from arguments: ...` error: for every
backend and every stats sink the backend state and the sink state are
returned untouched (so no `get` or `set` is attempted and no counter is
emitted) and the underlying computation is not invoked. -/
theorem c6_unserializable_argument {σ τ : Type} (client : CacheClient σ)
    (sc : StatsClient τ) (opts : CacheOpts) (fn : Computation)
    (args : List JsVal) (m : String) (st : σ) (t : τ)
    (hr : client.isReady st = true)
    (hs : stringifyArgs args = .error m) :
    memoizeCall client sc opts fn args st t =
      ⟨.error (.keyDerivation
          ("Failed to create cache key from arguments: " ++ m)), st, t, false⟩ := by
  simp [memoizeCall, createCacheKey, createKey, hr, hs]

/-- Witness for C6: a self-referential argument against the in-memory
backend. -/
theorem c6_unserializable_argument_witness :
    memoizeCall memClient countingStats ⟨30, ""⟩ stubFn [JsVal.circular] [] stats0 =
      ⟨.error (.keyDerivation
          ("Failed to create cache key from arguments: " ++
            "Converting circular structure to JSON")), [], stats0, false⟩ :=
  c6_unserializable_argument memClient countingStats ⟨30, ""⟩ stubFn
    [JsVal.circular] "Converting circular structure to JSON" [] stats0 rfl rfl

/-- C8.  A computation resolving to `null`: the miss stores `null`
under the key, and the next identical call is a hit that returns the
stored `null` without invoking the computation — the stored falsy value
is distinguished from the absence of an entry (the reply object is
truthy even though its item is `null`). -/
theorem c8_null_caching (opts : CacheOpts) (fn : Computation)
    (args : List JsVal) (k : CacheKey) (st : MemState) (t : Stats)
    (hk : createCacheKey fn args opts.suffix = .ok k)
    (hm : memLookup st k = none)
    (hv : fn.impl args = .ok .null) :
    (memoizeCall memClient countingStats opts fn args st t).result = .ok .null ∧
    memLookup (memoizeCall memClient countingStats opts fn args st t).cache k
      = some .null ∧
    (memoizeCall memClient countingStats opts fn args
        (memoizeCall memClient countingStats opts fn args st t).cache
        (memoizeCall memClient countingStats opts fn args st t).stats).result
      = .ok .null ∧
    (memoizeCall memClient countingStats opts fn args
        (memoizeCall memClient countingStats opts fn args st t).cache
        (memoizeCall memClient countingStats opts fn args st t).stats).fnInvoked
      = false := by
  rw [memCall_miss_store opts fn args k .null st t hk hm hv]
  refine ⟨rfl, memLookup_set st k .null, ?_, ?_⟩ <;>
    rw [memCall_hit opts fn args k .null _ _ hk (memLookup_set st k .null)]

/-- Witness for C8: a computation resolving to `null`, two calls from
the empty store. -/
theorem c8_null_caching_witness :
    (memoizeCall memClient countingStats ⟨30, ""⟩ nullFn [] [] stats0).result
      = .ok .null ∧
    memLookup (memoizeCall memClient countingStats ⟨30, ""⟩ nullFn [] []
        stats0).cache ⟨sha256hex "gsrc[]", "ceych_" ++ packageVersion⟩
      = some .null ∧
    (memoizeCall memClient countingStats ⟨30, ""⟩ nullFn []
        (memoizeCall memClient countingStats ⟨30, ""⟩ nullFn [] [] stats0).cache
        (memoizeCall memClient countingStats ⟨30, ""⟩ nullFn [] [] stats0).stats).result
      = .ok .null ∧
    (memoizeCall memClient countingStats ⟨30, ""⟩ nullFn []
        (memoizeCall memClient countingStats ⟨30, ""⟩ nullFn [] [] stats0).cache
        (memoizeCall memClient countingStats ⟨30, ""⟩ nullFn [] [] stats0).stats).fnInvoked
      = false :=
  c8_null_caching ⟨30, ""⟩ nullFn []
    ⟨sha256hex "gsrc[]", "ceych_" ++ packageVersion⟩ [] stats0 rfl rfl rfl

/-- C10.  When the backend reports not-ready, the call is the
underlying computation's own outcome, for every backend, stats sink,
argument list (including an unserializable one) and state: no key is
derived, no serialization error can surface, and backend and sink
states are untouched. -/
theorem c10_not_ready_bypass {σ τ : Type} (client : CacheClient σ)
    (sc : StatsClient τ) (opts : CacheOpts) (fn : Computation)
    (args : List JsVal) (st : σ) (t : τ)
    (hr : client.isReady st = false) :
    memoizeCall client sc opts fn args st t =
      ⟨fn.impl args, st, t, true⟩ := by
  simp [memoizeCall, hr]

/-- Witness for C10: a not-ready backend and a circular (unserializable)
argument — the call still succeeds with the computation's result. -/
theorem c10_not_ready_bypass_witness :
    memoizeCall notReadyClient noOpStatsClient ⟨30, ""⟩ stubFn
      [JsVal.circular] () () = ⟨.ok (.num 1), (), (), true⟩ :=
  c10_not_ready_bypass notReadyClient noOpStatsClient ⟨30, ""⟩ stubFn
    [JsVal.circular] () () rfl

/-- C5.  Invalidation round-trip on the in-memory backend: after a
wrapped call with suffix `s` and arguments `args` stores the computed
value under key `k`, `invalidate` called with the original computation,
the same arguments and the same suffix derives exactly that key `k`
(`utils.createCacheKey` agrees with the wrapped call's derivation) and
drops it, so the key is then absent, the next identical wrapped call
invokes the computation again, and the entry under every other key is
untouched. -/
theorem c5_invalidation_roundtrip (ttl : Int) (s : String) (fn : Computation)
    (args : List JsVal) (k : CacheKey) (v : JsVal) (st : MemState) (t : Stats)
    (hk : createCacheKey fn args s = .ok k)
    (hm : memLookup st k = none)
    (hv : fn.impl args = .ok v) :
    (memoizeCall memClient countingStats ⟨ttl, s⟩ fn args st t).cache =
      (k, v) :: memDrop st k ∧
    ceychInvalidate (.opts (some fn) (some (.str s))) args
        ((k, v) :: memDrop st k) =
      .ok (k, memDrop ((k, v) :: memDrop st k) k) ∧
    memLookup (memDrop ((k, v) :: memDrop st k) k) k = none ∧
    (memoizeCall memClient countingStats ⟨ttl, s⟩ fn args
        (memDrop ((k, v) :: memDrop st k) k) t).fnInvoked = true ∧
    ∀ k', k' ≠ k →
      memLookup (memDrop ((k, v) :: memDrop st k) k) k' =
        memLookup ((k, v) :: memDrop st k) k' := by
  have hval : validateInvalidateOpts (.opts (some fn) (some (.str s))) =
      .ok (fn, s) := by
    simp [validateInvalidateOpts, JsArg.isStr]
  refine ⟨?_, ?_, memLookup_memDrop_self _ _, ?_,
    fun k' h => memLookup_memDrop_ne _ _ _ h⟩
  · rw [memCall_miss_store ⟨ttl, s⟩ fn args k v st t hk hm hv]
  · simp [ceychInvalidate, hval, utilsCreateCacheKey_eq, hk]
  · rw [memCall_miss_store ⟨ttl, s⟩ fn args k v _ t hk
      (memLookup_memDrop_self _ _) hv]

/-- Witness for C5 at a concrete computation, argument and suffix. -/
theorem c5_invalidation_roundtrip_witness :
    (memoizeCall memClient countingStats ⟨30, "sfx"⟩ stubFn [.num 2] []
        stats0).cache = (mkKey "fsrc[2]sfx", .num 1) :: memDrop [] (mkKey "fsrc[2]sfx") ∧
    ceychInvalidate (.opts (some stubFn) (some (.str "sfx"))) [.num 2]
        ((mkKey "fsrc[2]sfx", .num 1) :: memDrop [] (mkKey "fsrc[2]sfx")) =
      .ok (mkKey "fsrc[2]sfx",
        memDrop ((mkKey "fsrc[2]sfx", .num 1) ::
          memDrop [] (mkKey "fsrc[2]sfx")) (mkKey "fsrc[2]sfx")) ∧
    memLookup (memDrop ((mkKey "fsrc[2]sfx", .num 1) ::
        memDrop [] (mkKey "fsrc[2]sfx")) (mkKey "fsrc[2]sfx"))
      (mkKey "fsrc[2]sfx") = none ∧
    (memoizeCall memClient countingStats ⟨30, "sfx"⟩ stubFn [.num 2]
        (memDrop ((mkKey "fsrc[2]sfx", .num 1) ::
          memDrop [] (mkKey "fsrc[2]sfx")) (mkKey "fsrc[2]sfx"))
        stats0).fnInvoked = true ∧
    ∀ k', k' ≠ mkKey "fsrc[2]sfx" →
      memLookup (memDrop ((mkKey "fsrc[2]sfx", .num 1) ::
          memDrop [] (mkKey "fsrc[2]sfx")) (mkKey "fsrc[2]sfx")) k' =
        memLookup ((mkKey "fsrc[2]sfx", .num 1) ::
          memDrop [] (mkKey "fsrc[2]sfx")) k' :=
  c5_invalidation_roundtrip 30 "sfx" stubFn [.num 2] (mkKey "fsrc[2]sfx")
    (.num 1) [] stats0 rfl rfl rfl

/-- C7.  TTL propagation: (a) whatever options a `wrap` call produced,
a cache-miss store writes to the backend with expiry `opts.ttl * 1000`
milliseconds; (b) wrapping with a nonzero numeric `ttl` makes that
`opts.ttl`; (c) with no `ttl` at wrap time (`undefined`) and no
`defaultTTL` at construction, `opts.ttl` is the default of 30
seconds. -/
theorem c7_ttl_propagation :
    (∀ (d : Int) (fn : Computation) (args : List JsVal) (k : CacheKey)
       (v : JsVal) (ta sa : JsArg) (opts : CacheOpts) (t : Stats),
       ceychWrap d fn ta sa = .ok opts →
       createCacheKey fn args opts.suffix = .ok k →
       fn.impl args = .ok v →
       (memoizeCall recordClient countingStats opts fn args [] t).cache =
         [(k, v, opts.ttl * 1000)]) ∧
    (∀ (d : Int) (fn : Computation) (n : Int) (s : String) (opts : CacheOpts),
       n ≠ 0 → ceychWrap d fn (.num n) (.str s) = .ok opts → opts.ttl = n) ∧
    (∀ (fn : Computation) (s : String) (d : Int) (opts : CacheOpts),
       validateClientOpts none = .ok d →
       ceychWrap d fn .undef (.str s) = .ok opts → opts.ttl = 30) := by
  refine ⟨?_, ?_, ?_⟩
  · intro d fn args k v ta sa opts t _ hk hv
    simp [memoizeCall, recordClient, countingStats, setInCache, hk, hv]
  · intro d fn n s opts hn hw
    simp [ceychWrap, getWrapOpts, jsOr, JsArg.truthy, hn] at hw
    rw [← hw]
  · intro fn s d opts hd hw
    simp [validateClientOpts] at hd
    subst hd
    simp [ceychWrap, getWrapOpts, jsOr, JsArg.truthy] at hw
    rw [← hw]

/-- Witness for C7: wrapping with `ttl = 5` writes with expiry 5000 ms;
the default TTL is 30. -/
theorem c7_ttl_propagation_witness :
    (memoizeCall recordClient countingStats ⟨5, ""⟩ stubFn [] [] stats0).cache =
      [(mkKey "fsrc[]", .num 1, 5000)] ∧
    (CacheOpts.mk 5 "").ttl = 5 ∧
    (CacheOpts.mk 30 "").ttl = 30 :=
  ⟨c7_ttl_propagation.1 30 stubFn [] (mkKey "fsrc[]") (.num 1) (.num 5)
      (.str "") ⟨5, ""⟩ stats0 rfl rfl rfl,
   c7_ttl_propagation.2.1 30 stubFn 5 "" ⟨5, ""⟩ (by decide) rfl,
   c7_ttl_propagation.2.2 stubFn "" 30 ⟨30, ""⟩ rfl rfl⟩

/-- Counterexample to C3 as stated.  A ready backend whose lookup misses
and whose `set` rejects, with a computation that successfully returned
`1`: the computation did run and `ceych.errors` was incremented (twice,
once in `setInCache` and once in the outer catch), but the
already-computed result is NOT returned — the call rejects with the
backend write error. -/
theorem c3_counterexample :
    (memoizeCall setErrClient countingStats ⟨30, ""⟩ stubFn [] () stats0).fnInvoked
      = true ∧
    (memoizeCall setErrClient countingStats ⟨30, ""⟩ stubFn [] () stats0).stats.errors
      = 2 ∧
    (memoizeCall setErrClient countingStats ⟨30, ""⟩ stubFn [] () stats0).result
      = .error (.jsError "SET Error!") ∧
    (memoizeCall setErrClient countingStats ⟨30, ""⟩ stubFn [] () stats0).result
      ≠ .ok (.num 1) := by
  refine ⟨rfl, rfl, rfl, ?_⟩
  intro h
  exact Except.noConfusion
    ((show (memoizeCall setErrClient countingStats ⟨30, ""⟩ stubFn [] ()
        stats0).result = .error (.jsError "SET Error!") from rfl).symm.trans h)

/-- C3 as amended.  When the backend is ready, the lookup misses, the
computation succeeds with `v`, and the backend `set` rejects with `e`:
the `ceych.errors` counter is incremented twice (in `setInCache`'s
catch and again in the outer catch) and the call rejects with `e` — the
already-computed result is not returned, although the computation did
run. -/
theorem c3_set_error_amended {σ : Type} (client : CacheClient σ)
    (opts : CacheOpts) (fn : Computation) (args : List JsVal) (k : CacheKey)
    (v : JsVal) (e : Err) (st st' st'' : σ) (t : Stats)
    (hr : client.isReady st = true)
    (hk : createCacheKey fn args opts.suffix = .ok k)
    (hg : client.get st k = (.ok none, st'))
    (hv : fn.impl args = .ok v)
    (hs : client.set st' k v (opts.ttl * 1000) = (.error e, st'')) :
    memoizeCall client countingStats opts fn args st t =
      ⟨.error e, st'',
       { t with misses := t.misses + 1, errors := t.errors + 2,
                readTimes := t.readTimes + 1 }, true⟩ := by
  simp [memoizeCall, countingStats, setInCache, statsIncErrors, hr, hk, hg,
    hv, hs]

/-- Witness for the amended C3: the always-rejecting-`set` backend. -/
theorem c3_set_error_amended_witness :
    memoizeCall setErrClient countingStats ⟨30, ""⟩ stubFn [] () stats0 =
      ⟨.error (.jsError "SET Error!"), (),
       { stats0 with misses := 1, errors := 2, readTimes := 1 }, true⟩ :=
  c3_set_error_amended setErrClient ⟨30, ""⟩ stubFn [] (mkKey "fsrc[]")
    (.num 1) (.jsError "SET Error!") () () () stats0 rfl rfl rfl rfl rfl

/-- Counterexample to C9 as stated.  A stats sink whose `increment`
throws on `ceych.hits`, against a backend holding an entry with item
`7`: with the throwing sink the call rejects with the sink's error,
while with the (non-throwing) no-op sink it returns the cached `7` —
the sink's throw changed the call's outcome. -/
theorem c9_counterexample :
    (memoizeCall hitClient throwOnHitsStats ⟨30, ""⟩ stubFn [] () ()).result
      = .error (.jsError "stats sink threw") ∧
    (memoizeCall hitClient noOpStatsClient ⟨30, ""⟩ stubFn [] () ()).result
      = .ok (.num 7) ∧
    (memoizeCall hitClient throwOnHitsStats ⟨30, ""⟩ stubFn [] () ()).result
      ≠ (memoizeCall hitClient noOpStatsClient ⟨30, ""⟩ stubFn [] () ()).result := by
  refine ⟨rfl, rfl, ?_⟩
  intro h
  exact Except.noConfusion
    ((show (memoizeCall hitClient throwOnHitsStats ⟨30, ""⟩ stubFn [] ()
          ()).result = .error (.jsError "stats sink threw") from rfl).symm.trans
      (h.trans (show (memoizeCall hitClient noOpStatsClient ⟨30, ""⟩ stubFn []
          () ()).result = .ok (.num 7) from rfl)))

/-- Reduction of `statsIncErrors` for a sink whose `increment` never throws: the
original error is the one that propagates. -/
theorem statsIncErrors_eq {τ : Type} (sc : StatsClient τ)
    (hinc : ∀ x n, (sc.increment x n).1 = none) (t : τ) (e : Err) :
    statsIncErrors sc t e = (e, (sc.increment t "ceych.errors").2) := by
  unfold statsIncErrors
  rcases h : sc.increment t "ceych.errors" with ⟨i, t'⟩
  have hh := hinc t "ceych.errors"
  rw [h] at hh
  simp at hh
  subst hh
  simp [h]

/-- The no-op sink's `increment` is silent. -/
theorem noOp_increment (t : Unit) (n : String) :
    noOpStatsClient.increment t n = (none, t) := rfl

/-- The no-op sink's `timing` is silent. -/
theorem noOp_timing (t : Unit) (n : String) :
    noOpStatsClient.timing t n = (none, t) := rfl

/-- Reduction of `statsIncErrors` with the no-op sink: it propagates the original
error. -/
theorem statsIncErrors_noOp (t : Unit) (e : Err) :
    statsIncErrors noOpStatsClient t e = (e, t) := rfl

/-- C9 as amended.  Provided the configured stats sink's `increment`
and `timing` never throw, stats emission does not affect the outcome:
the result, the final backend state and whether the computation ran are
exactly those of the same call with the no-op sink. -/
theorem c9_stats_isolation_amended {σ τ : Type} (client : CacheClient σ)
    (sc : StatsClient τ) (opts : CacheOpts) (fn : Computation)
    (args : List JsVal) (st : σ) (t : τ)
    (hinc : ∀ x n, (sc.increment x n).1 = none)
    (htim : ∀ x n, (sc.timing x n).1 = none) :
    (memoizeCall client sc opts fn args st t).result =
      (memoizeCall client noOpStatsClient opts fn args st ()).result ∧
    (memoizeCall client sc opts fn args st t).cache =
      (memoizeCall client noOpStatsClient opts fn args st ()).cache ∧
    (memoizeCall client sc opts fn args st t).fnInvoked =
      (memoizeCall client noOpStatsClient opts fn args st ()).fnInvoked := by
  cases hb : client.isReady st with
  | false => simp [memoizeCall, hb]
  | true =>
    cases hkk : createCacheKey fn args opts.suffix with
    | error e => simp [memoizeCall, hb, hkk]
    | ok k =>
      rcases hg : client.get st k with ⟨gr, st'⟩
      cases gr with
      | error e =>
        simp [memoizeCall, hb, hkk, hg, statsIncErrors_eq sc hinc,
          noOp_increment, noOp_timing, statsIncErrors_noOp]
      | ok reply =>
        rcases htm : sc.timing t "ceych.read_time" with ⟨tm1, t1⟩
        have htm1 : tm1 = none := by
          have := htim t "ceych.read_time"; rw [htm] at this; simpa using this
        subst htm1
        cases reply with
        | some item =>
          rcases hin : sc.increment t1 "ceych.hits" with ⟨i1, t2⟩
          have hi1 : i1 = none := by
            have := hinc t1 "ceych.hits"; rw [hin] at this; simpa using this
          subst hi1
          simp [memoizeCall, hb, hkk, hg, htm, hin, noOpStatsClient]
        | none =>
          rcases hin : sc.increment t1 "ceych.misses" with ⟨i1, t2⟩
          have hi1 : i1 = none := by
            have := hinc t1 "ceych.misses"; rw [hin] at this; simpa using this
          subst hi1
          cases hf : fn.impl args with
          | error e =>
            simp [memoizeCall, hb, hkk, hg, htm, hin, hf,
              statsIncErrors_eq sc hinc, noOp_increment, noOp_timing,
              statsIncErrors_noOp]
          | ok v =>
            rcases hs : client.set st' k v (opts.ttl * 1000) with ⟨sr, st''⟩
            cases sr with
            | ok _ =>
              rcases hwt : sc.timing t2 "ceych.write_time" with ⟨w1, t3⟩
              have hw1 : w1 = none := by
                have := htim t2 "ceych.write_time"; rw [hwt] at this
                simpa using this
              subst hw1
              simp [memoizeCall, setInCache, hb, hkk, hg, htm, hin, hf, hs,
                hwt, noOpStatsClient]
            | error e =>
              simp [memoizeCall, setInCache, hb, hkk, hg, htm, hin, hf, hs,
                statsIncErrors_eq sc hinc, noOp_increment, noOp_timing,
                statsIncErrors_noOp]

/-- Witness for the amended C9: the counting sink (which never throws)
against the always-hitting backend. -/
theorem c9_stats_isolation_amended_witness :
    (memoizeCall hitClient countingStats ⟨30, ""⟩ stubFn [] () stats0).result =
      (memoizeCall hitClient noOpStatsClient ⟨30, ""⟩ stubFn [] () ()).result ∧
    (memoizeCall hitClient countingStats ⟨30, ""⟩ stubFn [] () stats0).cache =
      (memoizeCall hitClient noOpStatsClient ⟨30, ""⟩ stubFn [] () ()).cache ∧
    (memoizeCall hitClient countingStats ⟨30, ""⟩ stubFn [] () stats0).fnInvoked =
      (memoizeCall hitClient noOpStatsClient ⟨30, ""⟩ stubFn [] () ()).fnInvoked :=
  c9_stats_isolation_amended hitClient countingStats ⟨30, ""⟩ stubFn [] ()
    stats0 (fun _ _ => rfl) (fun _ _ => rfl)

end Ceych
